import Mathlib

/-!
Verification of the area-estimation / density / phytosociology / diversity core of
the dashboard_MTE repository (src/app_indicadores.py, src/verificar_areas.py).

Shallow embedding conventions:
* A spreadsheet cell is either missing (NaN), a text value, or a numeric value.
  Machine floats are modelled by exact rationals; the constants of the source
  (0.499, 0.5, 100, 10000) are exactly representable in the comparisons at issue.
* A DataFrame is a list of column names plus a list of rows; a row is an
  association list from column name to cell (a missing entry reads as NaN).
* pandas to_numeric(errors=coerce) is modelled by reading numeric cells and
  coercing text/missing cells to NaN (unparseable text, the spec's taxonomy (c)).
* pandas groupby is modelled by grouping on the list of distinct keys; rows
  whose key is NaN are dropped, as pandas does.  Group order in the model is
  occurrence order (pandas sorts keys); all outputs proved about are sums,
  lengths and distinct counts, which do not depend on group order.
* The Python functions wrap their bodies in try/except returning a zero result;
  the embedded functions are total, so the exception arm is unreachable here.
-/

namespace DashboardMTE

/-- A spreadsheet cell: missing (NaN), text, or numeric. -/
inductive Cell where
  | na : Cell
  | txt : String → Cell
  | num : ℚ → Cell
deriving DecidableEq

/-- A row is an association list from physical column name to cell. -/
abbrev Row := List (String × Cell)

/-- A DataFrame: its column names and its rows. -/
structure DF where
  cols : List String
  rows : List Row
deriving DecidableEq

/-- Reading a cell of a row; a column absent from the row reads as NaN. -/
def getCell (r : Row) (c : String) : Cell := (r.lookup c).getD Cell.na

/-- Python str(x) on a cell: NaN prints as the text nan (after astype(str)). -/
def cellToStr : Cell → String
  | Cell.na => "nan"
  | Cell.txt v => v
  | Cell.num v => toString v

/-- pandas to_numeric(errors=coerce): numeric cells pass, text and NaN coerce to NaN. -/
def cellToNum : Cell → Option ℚ
  | Cell.num v => some v
  | _ => none

/-- Is the first list a prefix of the second? -/
def isPref : List Char → List Char → Bool
  | [], _ => true
  | _ :: _, [] => false
  | a :: as, b :: bs => a == b && isPref as bs

/-- Does the second list contain the first as a contiguous sublist (Python in)? -/
def hasSub (needle : List Char) : List Char → Bool
  | [] => isPref needle []
  | c :: t => isPref needle (c :: t) || hasSub needle t

/-- Python s.lower(): lowercase the characters of a string. -/
def lowerChars (s : String) : List Char := s.toList.map Char.toLower

/-- Case-insensitive containment test (pandas str.contains(pat, case=False)). -/
def containsCI (pat : String) (s : String) : Bool :=
  hasSub (lowerChars pat) (lowerChars s)

/-- Normalisation used in encontrar_coluna: lower-case and strip spaces and
underscores (lower().replace(' ','').replace('_','')). -/
def normName (s : String) : List Char :=
  (s.toList.filter (fun c => !(c == ' ' || c == '_'))).map Char.toLower

/-- encontrar_coluna (app_indicadores.py line 415): for each candidate name in
order, return the first physical column whose normalised name contains the
normalised candidate as a substring; None if no candidate matches. -/
def encontrar_coluna (df : DF) (nomes : List String) : Option String :=
  nomes.findSome? (fun nome =>
    df.cols.find? (fun col => hasSub (normName nome) (normName col)))

example : encontrar_coluna ⟨["Cod_Parc", "area_ha"], []⟩ ["cod_parc"] = some "Cod_Parc" := by decide

example : encontrar_coluna ⟨["especie", "idade"], []⟩ ["plaqueta", "plaq", "id"] = some "idade" := by decide

example : encontrar_coluna ⟨["x"], []⟩ ["cod_parc"] = none := by decide

/-- Splitting a character list at underscores (Python str.split of a string). -/
def splitUndAux (acc : List Char) : List Char → List (List Char)
  | [] => [acc.reverse]
  | c :: t => if c == '_' then acc.reverse :: splitUndAux [] t else splitUndAux (c :: acc) t

/-- Python s.split of a string on the underscore separator. -/
def splitUnd (s : String) : List String :=
  (splitUndAux [] s.toList).map (fun l => String.mk l)

example : splitUnd "p1_ut2" = ["p1", "ut2"] := by decide

example : splitUnd "p1" = ["p1"] := by decide

/-- pandas nunique over a column of some rows: distinct non-NaN values. -/
def nuniqueRows (rows : List Row) (col : String) : ℕ :=
  ((rows.map (fun r => getCell r col)).filter (fun c => !(c == Cell.na))).dedup.length

/-- The distinct keys of a grouping, NaN (= None) keys dropped as pandas does. -/
def groupKeys {κ : Type} [DecidableEq κ] (rows : List Row) (key : Row → Option κ) :
    List κ :=
  (rows.filterMap key).dedup

/-- pandas groupby: each distinct non-NaN key with the rows that carry it. -/
def groupRows {κ : Type} [DecidableEq κ] (rows : List Row) (key : Row → Option κ) :
    List (κ × List Row) :=
  (groupKeys rows key).map (fun k => (k, rows.filter (fun r => decide (key r = some k))))

/-- pandas groupby(...).agg(first): first non-NaN numeric value of the cells. -/
def firstNum (cells : List Cell) : Option ℚ := (cells.filterMap cellToNum).head?

/-- Candidate names for the plot-code column, shared by the area functions. -/
def parcCands : List String := ["cod_parc", "codigo_parcela", "parcela"]

/-- Candidate names for the property-code column. -/
def propCands : List String := ["cod_prop", "codigo_propriedade", "propriedade"]

/-- Candidate names for the work-unit column. -/
def utCands : List String := ["ut", "unidade_trabalho", "UT"]

/-- The (extracted property, extracted work unit) key of a row in the census
area computation.  In the PROP_UT format the plot code is split at the
underscore: part 0 is the property and part 1 the work unit; a code with no
second part yields a NaN key component, so the row is dropped by groupby. -/
def censoKeySplit (colParc : String) (r : Row) : Option (String × String) :=
  let parts := splitUnd (cellToStr (getCell r colParc))
  (parts.get? 1).map (fun ut => (parts.headD "", ut))

/-- The key of a row when property and work unit come from separate columns
(both cast with astype(str), hence never NaN). -/
def censoKeyCols (colProp colUt : String) (r : Row) : Option (String × String) :=
  some (cellToStr (getCell r colProp), cellToStr (getCell r colUt))

/-- The key extraction chosen by calcular_area_censo_inventario: the split
format if the first row's plot code contains an underscore, otherwise the
separate property / work-unit columns when both resolve, otherwise none. -/
def censoKeyFn (df : DF) (colParc : String) : Option (Row → Option (String × String)) :=
  if hasSub ['_'] (cellToStr (getCell (df.rows.headD []) colParc)).toList then
    some (censoKeySplit colParc)
  else
    match encontrar_coluna df propCands, encontrar_coluna df utCands with
    | some colProp, some colUt => some (censoKeyCols colProp colUt)
    | _, _ => none

/-- Total area of the census groups: per (property, work-unit) group take the
first (non-NaN) area value and sum across groups (pandas agg first + sum,
both of which skip NaN). -/
def censoAreaTotal (df : DF) (colArea : String) (key : Row → Option (String × String)) : ℚ :=
  ((groupRows df.rows key).map
    (fun g => (firstNum (g.2.map (fun r => getCell r colArea))).getD 0)).sum

/-- Total of the per-group counts of the plot-code column (pandas agg count;
the column was cast astype(str) beforehand, so no entry is NaN and the count
of a group is its number of rows). -/
def censoIndividuos (df : DF) (key : Row → Option (String × String)) : ℕ :=
  ((groupRows df.rows key).map (fun g => g.2.length)).sum

/-- calcular_area_censo_inventario (app_indicadores.py line 537): census-method
area from the inventory, deduplicating the repeated per-row area by
(property, work-unit) group.  Returns (area, method description). -/
def calcular_area_censo_inventario (df : DF) : ℚ × String :=
  if df.rows.length = 0 then (0, "Censo (sem dados de inventário)") else
  match encontrar_coluna df parcCands, encontrar_coluna df ["area_ha", "area"] with
  | some colParc, some colArea =>
    (match censoKeyFn df colParc with
     | none => (0, "Censo - não foi possível identificar cod_prop e UT")
     | some key =>
       (censoAreaTotal df colArea key,
        "Censo (" ++ toString (groupKeys df.rows key).length ++ " UTs, " ++
          toString (censoIndividuos df key) ++ " indivíduos)"))
  | _, _ => (0, "Censo - colunas não encontradas")

/-- calcular_area_parcelas_tradicional (app_indicadores.py line 593): plot-method
area, 100 square metres per distinct plot code, converted to hectares. -/
def calcular_area_parcelas_tradicional (df : DF) : ℚ × String :=
  if df.rows.length = 0 then (0, "Parcelas (sem dados)") else
  match encontrar_coluna df parcCands with
  | none => (0, "Parcelas (coluna não encontrada)")
  | some colParc =>
    let n := nuniqueRows df.rows colParc
    if 0 < n then
      (((n : ℚ) * 100) / 10000, "Parcelas (" ++ toString n ++ " parcelas × 100m²)")
    else (0, "Parcelas (sem dados válidos)")

/-- The astype(str) cast of one column of a row. -/
def stringifyCol (col : String) (r : Row) : Row :=
  r.map (fun kv => if kv.1 == col then (kv.1, Cell.txt (cellToStr kv.2)) else kv)

/-- filtrar_inventario_por_propriedades (app_indicadores.py line 499): keep the
inventory rows whose property code (split from the plot code in the PROP_UT
format, else read from a separate property column) is, case-insensitively, one
of the given property values.  When the plot-code column does not resolve, or
the first plot code has no underscore and no property column resolves, the
WHOLE input is returned unchanged.  (The Python adds then drops a temporary
prop_temp column; the plot-code column of the returned rows stays cast to
string, reproduced here by stringifyCol.) -/
def filtrar_inventario_por_propriedades (df : DF) (props : List Cell) : DF :=
  match encontrar_coluna df parcCands with
  | none => df
  | some colParc =>
    let firstHasU :=
      if 0 < df.rows.length then
        hasSub ['_'] (cellToStr (getCell (df.rows.headD []) colParc)).toList
      else false
    let propTemp : Option (Row → String) :=
      if firstHasU then
        some (fun r => (splitUnd (cellToStr (getCell r colParc))).headD "")
      else
        match encontrar_coluna df propCands with
        | some colProp => some (fun r => cellToStr (getCell r colProp))
        | none => none
    match propTemp with
    | none => df
    | some pt =>
      let propsL := props.map (fun p => lowerChars (cellToStr p))
      let rows2 := (df.rows.map (stringifyCol colParc)).filter
        (fun r => decide (lowerChars (pt r) ∈ propsL))
      { df with rows := rows2 }

/-- Candidate names for the sampling-technique column. -/
def tecCands : List String := ["tecnica_am", "tecnica", "metodo"]

/-- pandas .str.lower() on a cell: text is lowercased, anything else becomes NaN. -/
def cellLower : Cell → Cell
  | Cell.txt v => Cell.txt (String.mk (lowerChars v))
  | _ => Cell.na

/-- Lowercase the technique column of a row (df_carac_copy[tecnica_col].str.lower()). -/
def lowerTecRow (tcol : String) (r : Row) : Row :=
  r.map (fun kv => if kv.1 == tcol then (kv.1, cellLower kv.2) else kv)

/-- The characterization rows with the technique column lowercased. -/
def rowsTecLower (df : DF) (tcol : String) : List Row :=
  df.rows.map (lowerTecRow tcol)

/-- tem_censo: some technique value contains censo (str(t) over the unique
lowered values; testing all rows is equivalent to testing the uniques). -/
def temCenso (df : DF) (tcol : String) : Bool :=
  (rowsTecLower df tcol).any
    (fun r => hasSub "censo".toList (cellToStr (getCell r tcol)).toList)

/-- tem_parcelas: some technique value contains parcela or plot. -/
def temParcelas (df : DF) (tcol : String) : Bool :=
  (rowsTecLower df tcol).any
    (fun r => hasSub "parcela".toList (cellToStr (getCell r tcol)).toList ||
              hasSub "plot".toList (cellToStr (getCell r tcol)).toList)

/-- Per-row test str.contains(censo, na=False) on the lowered technique cell. -/
def rowTemCenso (tcol : String) (r : Row) : Bool :=
  match getCell r tcol with
  | Cell.txt v => hasSub "censo".toList v.toList
  | _ => false

/-- The census partition of the mixed branch: lowered rows whose technique
contains censo. -/
def particaoCenso (df : DF) (tcol : String) : List Row :=
  (rowsTecLower df tcol).filter (rowTemCenso tcol)

/-- The plot partition of the mixed branch: lowered rows whose technique does
NOT contain censo (the Python negates the contains test, so NaN technique rows
land in this partition). -/
def particaoParcelas (df : DF) (tcol : String) : List Row :=
  (rowsTecLower df tcol).filter (fun r => !(rowTemCenso tcol r))

/-- dados['cod_prop'].unique(): the distinct property cells of some rows (the
column name is checked literally, not through the column resolver). -/
def propsUnicos (rows : List Row) : List Cell :=
  (rows.map (fun r => getCell r "cod_prop")).dedup

/-- The census term of the mixed combination: computed only when the census
partition is non-empty, the literal cod_prop column exists, its distinct values
are non-empty, and the inventory filtered to those properties is non-empty. -/
def contribuicaoCenso (dfC dfI : DF) (tcol : String) : Option (ℚ × String) :=
  let dados := particaoCenso dfC tcol
  if 0 < dados.length then
    let props := if "cod_prop" ∈ dfC.cols then propsUnicos dados else []
    if 0 < props.length then
      let dfInvC := filtrar_inventario_por_propriedades dfI props
      if 0 < dfInvC.rows.length then some (calcular_area_censo_inventario dfInvC)
      else none
    else none
  else none

/-- The plot term of the mixed combination, symmetric to contribuicaoCenso. -/
def contribuicaoParcelas (dfC dfI : DF) (tcol : String) : Option (ℚ × String) :=
  let dados := particaoParcelas dfC tcol
  if 0 < dados.length then
    let props := if "cod_prop" ∈ dfC.cols then propsUnicos dados else []
    if 0 < props.length then
      let dfInvP := filtrar_inventario_por_propriedades dfI props
      if 0 < dfInvP.rows.length then some (calcular_area_parcelas_tradicional dfInvP)
      else none
    else none
  else none

/-- calcular_area_amostrada (app_indicadores.py line 424): dispatch on the
technique column; census-only and plot-only delegate to their algorithm, the
mixed case sums the census term over the census-partition properties and the
plot term over the plot-partition properties. -/
def calcular_area_amostrada (dfC dfI : DF) : ℚ × String :=
  if dfC.rows.length = 0 ∧ dfI.rows.length = 0 then (0, "Sem dados") else
  match encontrar_coluna dfC tecCands with
  | none => calcular_area_parcelas_tradicional dfI
  | some tcol =>
    if dfC.rows.length = 0 then calcular_area_parcelas_tradicional dfI else
    if temCenso dfC tcol && !(temParcelas dfC tcol) then
      calcular_area_censo_inventario dfI
    else if temParcelas dfC tcol && !(temCenso dfC tcol) then
      calcular_area_parcelas_tradicional dfI
    else if temCenso dfC tcol && temParcelas dfC tcol then
      let contribs :=
        [(contribuicaoCenso dfC dfI tcol).map (fun am => (am.1, "Censo: " ++ am.2)),
         (contribuicaoParcelas dfC dfI tcol).map (fun am => (am.1, "Parcelas: " ++ am.2))].filterMap id
      ((contribs.map Prod.fst).sum,
       if contribs.length = 0 then "Misto (sem dados)"
       else String.intercalate " + " (contribs.map Prod.snd))
    else calcular_area_parcelas_tradicional dfI

/-- Species-column candidates as ordered in calcular_densidade_regenerantes
and in the richness block of calcular_indicadores_propriedade. -/
def espCandsDens : List String := ["especies", "especie", "species", "sp"]

/-- Species-column candidates as ordered in the phytosociology and diversity
functions. -/
def espCandsFito : List String := ["especie", "especies", "species", "sp"]

/-- Origin-column candidates. -/
def origCands : List String := ["origem", "origin", "procedencia"]

/-- Age-class column candidates. -/
def idadeCands : List String := ["idade", "age", "class_idade"]

/-- Height-column candidates in the regenerant-density filter (note the extra
single-letter candidate h). -/
def htCandsDens : List String := ["ht", "altura", "height", "h"]

/-- Height-column candidates in the richness block (no h candidate). -/
def htCandsRiqueza : List String := ["ht", "altura", "height"]

/-- Tag-column candidates. -/
def plaqCands : List String := ["plaqueta", "plaq", "id"]

/-- Diameter-column candidates. -/
def dapCands : List String := ["dap", "dap_cm", "diameter"]

/-- str.contains with the regex Morto|Morta, case=False, on str(cell). -/
def ehMortoMorta (c : Cell) : Bool :=
  containsCI "morto" (cellToStr c) || containsCI "morta" (cellToStr c)

/-- The height cut of the regenerant-density filter: keep numeric heights
greater or equal 0.499 (a NaN comparison is False, so the row is dropped). -/
def keepAlturaDensidade (c : Cell) : Bool :=
  match cellToNum c with
  | some v => decide (v ≥ 499 / 1000)
  | none => false

/-- The height cut of the richness block: keep numeric heights STRICTLY
greater than 0.5. -/
def keepAlturaRiqueza (c : Cell) : Bool :=
  match cellToNum c with
  | some v => decide (v > 1 / 2)
  | none => false

/-- The four-step filter sequence of calcular_densidade_regenerantes
(app_indicadores.py line 3482-3508): drop dead-marked species rows, keep
native-origin rows, keep young-age rows, keep rows of height at least 0.499.
Each step runs only when its column resolves (filtering rows never changes the
column set, so resolving against the input frame is the same as the Python's
resolving against the partially filtered frame). -/
def filtroRegenerantes (df : DF) : List Row :=
  let r1 := match encontrar_coluna df espCandsDens with
    | some col => df.rows.filter (fun r => !(ehMortoMorta (getCell r col)))
    | none => df.rows
  let r2 := match encontrar_coluna df origCands with
    | some col => r1.filter (fun r => containsCI "nativa" (cellToStr (getCell r col)))
    | none => r1
  let r3 := match encontrar_coluna df idadeCands with
    | some col => r2.filter (fun r => containsCI "jovem" (cellToStr (getCell r col)))
    | none => r2
  match encontrar_coluna df htCandsDens with
  | some col => r3.filter (fun r => keepAlturaDensidade (getCell r col))
  | none => r3

/-- calcular_densidade_regenerantes (app_indicadores.py line 3475, the later
definition, which shadows the debug variant at line 619; both compute the same
value): distinct tags of the filtered subset divided by the area of the
UNFILTERED characterization/inventory pair, 0 when that area is not positive. -/
def calcular_densidade_regenerantes (dfI dfC : DF) : ℚ :=
  if dfI.rows.length = 0 ∨ dfC.rows.length = 0 then 0 else
  let filtrado := filtroRegenerantes dfI
  if filtrado.length = 0 then 0 else
  let numRegenerantes : ℕ :=
    match encontrar_coluna dfI plaqCands with
    | some pcol => nuniqueRows filtrado pcol
    | none => filtrado.length
  let area := (calcular_area_amostrada dfC dfI).1
  if 0 < area then (numRegenerantes : ℚ) / area else 0

/-- The observed-richness block of calcular_indicadores_propriedade
(app_indicadores.py lines 3405-3435): distinct species among rows that are not
dead-marked, are native when the origin column resolves, and have height
STRICTLY above 0.5 when the height column resolves. -/
def riqueza_observada (df : DF) : ℕ :=
  match encontrar_coluna df espCandsDens with
  | none => 0
  | some colEsp =>
    if df.rows.length = 0 then 0 else
    let validas := df.rows.filter (fun r => !(ehMortoMorta (getCell r colEsp)))
    let nativas := match encontrar_coluna df origCands with
      | some colO => validas.filter (fun r => containsCI "nativa" (cellToStr (getCell r colO)))
      | none => validas
    let nativasAltura := match encontrar_coluna df htCandsRiqueza with
      | some colH => nativas.filter (fun r => keepAlturaRiqueza (getCell r colH))
      | none => nativas
    nuniqueRows nativasAltura colEsp

/-- The non-NaN values of a column (the support of pandas value_counts). -/
def valoresEspecie (df : DF) (col : String) : List Cell :=
  (df.rows.map (fun r => getCell r col)).filter (fun c => !(c == Cell.na))

/-- pandas value_counts: each distinct non-NaN value with its multiplicity. -/
def especiesCount (df : DF) (col : String) : List (Cell × ℕ) :=
  let vals := valoresEspecie df col
  vals.dedup.map (fun v => (v, vals.count v))

/-- Shannon index of an abundance list: minus the sum of p log p over the
relative abundances. -/
noncomputable def shannonIndex (counts : List ℕ) : ℝ :=
  -((counts.map (fun c =>
      ((c : ℝ) / (counts.sum : ℝ)) * Real.log ((c : ℝ) / (counts.sum : ℝ)))).sum)

/-- Simpson diversity 1 - sum of squared relative abundances (exact in ℚ). -/
def simpsonDiversidade (counts : List ℕ) : ℚ :=
  1 - ((counts.map (fun c => ((c : ℚ) / (counts.sum : ℚ)) ^ 2)).sum)

/-- Pielou evenness: Shannon over log richness when richness exceeds 1, else 0. -/
noncomputable def pielou (counts : List ℕ) : ℝ :=
  if 1 < counts.length then shannonIndex counts / Real.log (counts.length : ℝ) else 0

/-- calcular_indices_diversidade (app_indicadores.py line 3001), the
computation core: the abundance distribution is the value_counts of the species
column; returns (richness, Shannon, Simpson diversity, Pielou), none when the
species column does not resolve or no species value exists (the Python then
only displays a message). -/
noncomputable def calcular_indices_diversidade (df : DF) : Option (ℕ × ℝ × ℚ × ℝ) :=
  match encontrar_coluna df espCandsFito with
  | none => none
  | some colEsp =>
    let counts := (especiesCount df colEsp).map Prod.snd
    if counts.length = 0 then none else
    some (counts.length, shannonIndex counts, simpsonDiversidade counts, pielou counts)

/-- Insertion into a sorted rational list. -/
def insSorted (x : ℚ) : List ℚ → List ℚ
  | [] => [x]
  | y :: t => if x ≤ y then x :: y :: t else y :: insSorted x t

/-- Insertion sort of rationals (for the pandas median). -/
def sortQ : List ℚ → List ℚ
  | [] => []
  | x :: t => insSorted x (sortQ t)

/-- pandas Series.median over the non-NaN values: middle element of the sorted
list, or the mean of the two middle elements; NaN (none) for an empty list. -/
def mediana (l : List ℚ) : Option ℚ :=
  let s := sortQ l
  let n := s.length
  if n = 0 then none
  else if n % 2 = 1 then s.get? (n / 2)
  else
    match s.get? (n / 2 - 1), s.get? (n / 2) with
    | some a, some b => some ((a + b) / 2)
    | _, _ => none

/-- The numeric diameters of the inventory (to_numeric, NaN dropped). -/
def dapsNumericos (df : DF) (colDap : String) : List ℚ :=
  (df.rows.map (fun r => cellToNum (getCell r colDap))).filterMap id

/-- The millimetre heuristic: divide diameters by 10 when their median exceeds
100 (a NaN median compares False). -/
def dapAjusteDiv10 (df : DF) (colDap : String) : Bool :=
  match mediana (dapsNumericos df colDap) with
  | some m => decide (m > 100)
  | none => false

/-- The basal-area coefficient of one stem row: the source computes
area_basal_m2 = pi * (dap_cm / 2)^2 / 10000; here basal area is pi times this
rational coefficient, NaN (none) when the diameter does not parse. -/
def coefBasalRow (df : DF) (colDap : String) (r : Row) : Option ℚ :=
  (cellToNum (getCell r colDap)).map (fun d0 =>
    let d := if dapAjusteDiv10 df colDap then d0 / 10 else d0
    (d / 2) ^ 2 / 10000)

/-- The (species, tag) pairs of the per-individual grouping; rows whose species
or tag is NaN are dropped by groupby. -/
def paresIndividuo (df : DF) (colEsp colPlaq : String) : List (Cell × Cell) :=
  groupKeys df.rows (fun r =>
    match getCell r colEsp, getCell r colPlaq with
    | Cell.na, _ => none
    | _, Cell.na => none
    | e, p => some (e, p))

/-- The summed basal coefficient of one individual: all stem rows of its
(species, tag) pair, NaN stems skipped as pandas sum does. -/
def basalPar (df : DF) (colEsp colPlaq colDap : String) (par : Cell × Cell) : ℚ :=
  ((df.rows.filter (fun r =>
      getCell r colEsp == par.1 && getCell r colPlaq == par.2)).filterMap
    (coefBasalRow df colDap)).sum

/-- The distinct non-NaN species keys of the frame. -/
def espKeys (df : DF) (colEsp : String) : List Cell :=
  groupKeys df.rows (fun r =>
    match getCell r colEsp with
    | Cell.na => none
    | e => some e)

/-- The rows of one species group. -/
def linhasEspecie (df : DF) (colEsp : String) (e : Cell) : List Row :=
  df.rows.filter (fun r => getCell r colEsp == e)

/-- Census-mode species aggregation when both tag and diameter columns are
available (app_indicadores.py lines 2692-2705): group by (species, tag)
summing stem basal areas, then per species count distinct tags and sum the
per-individual basal totals.  Output rows are
(species, individual count, basal coefficient). -/
def fitoCensoComDap (df : DF) (colEsp colPlaq colDap : String) : List (Cell × ℕ × ℚ) :=
  let pares := paresIndividuo df colEsp colPlaq
  (pares.map Prod.fst).dedup.map (fun e =>
    let meus := pares.filter (fun par => par.1 == e)
    (e, (meus.map Prod.snd).dedup.length,
     (meus.map (basalPar df colEsp colPlaq colDap)).sum))

/-- Census-mode aggregation with a tag column but no diameter (lines
2706-2712): distinct tags per species, basal area 0. -/
def fitoCensoSemDap (df : DF) (colEsp colPlaq : String) : List (Cell × ℕ × ℚ) :=
  (espKeys df colEsp).map (fun e =>
    (e, nuniqueRows (linhasEspecie df colEsp e) colPlaq, 0))

/-- Census-mode fallback without a tag column and with diameters (lines
2713-2719): raw row count per species and directly summed basal area. -/
def fitoCensoSemPlaqueta (df : DF) (colEsp colDap : String) : List (Cell × ℕ × ℚ) :=
  (espKeys df colEsp).map (fun e =>
    (e, (linhasEspecie df colEsp e).length,
     ((linhasEspecie df colEsp e).filterMap (coefBasalRow df colDap)).sum))

/-- calcular_fitossociologia_censo (app_indicadores.py line 2659), the species
aggregation that feeds the displayed table: rows (species, individual count,
basal coefficient), basal area being pi times the coefficient.  none models
the displayed-error exits (no data, no species column, and the fallback branch
without tag and diameter columns, which raises KeyError on the absent basal
column and is caught by the except arm). -/
def calcular_fitossociologia_censo (df : DF) : Option (List (Cell × ℕ × ℚ)) :=
  if df.rows.length = 0 then none else
  match encontrar_coluna df espCandsFito with
  | none => none
  | some colEsp =>
    match encontrar_coluna df plaqCands, encontrar_coluna df dapCands with
    | some colPlaq, some colDap => some (fitoCensoComDap df colEsp colPlaq colDap)
    | some colPlaq, none => some (fitoCensoSemDap df colEsp colPlaq)
    | none, some colDap => some (fitoCensoSemPlaqueta df colEsp colDap)
    | none, none => none

/-- Plot-mode per-species frequency: distinct plot codes containing the species. -/
def frequenciaEspecie (df : DF) (colEsp colParc : String) (e : Cell) : ℕ :=
  nuniqueRows (linhasEspecie df colEsp e) colParc

/-- Plot-mode per-species individual count: distinct tags when the tag column
resolves, else the raw group size. -/
def individuosEspecie (df : DF) (colEsp : String) (colPlaq? : Option String) (e : Cell) : ℕ :=
  match colPlaq? with
  | some colPlaq => nuniqueRows (linhasEspecie df colEsp e) colPlaq
  | none => (linhasEspecie df colEsp e).length

/-- Plot-mode per-species basal table (app_indicadores.py lines 2858-2875):
with a tag column, group by (species, tag) first and sum per individual, then
per species; without one, sum directly; without diameters, every species of
the individual-count table with basal 0. -/
def basalEspecies (df : DF) (colEsp : String) (colPlaq? colDap? : Option String) :
    List (Cell × ℚ) :=
  match colDap?, colPlaq? with
  | some colDap, some colPlaq =>
    let pares := paresIndividuo df colEsp colPlaq
    (pares.map Prod.fst).dedup.map (fun e =>
      (e, ((pares.filter (fun par => par.1 == e)).map
            (basalPar df colEsp colPlaq colDap)).sum))
  | some colDap, none =>
    (espKeys df colEsp).map (fun e =>
      (e, ((linhasEspecie df colEsp e).filterMap (coefBasalRow df colDap)).sum))
  | none, _ => (espKeys df colEsp).map (fun e => (e, 0))

/-- calcular_fitossociologia_parcelas (app_indicadores.py line 2815), the
species aggregation that feeds the displayed table.  The three per-species
tables (frequency, individual count, basal area) are inner-merged on the
species key, preserving the left (frequency) key order; the frequency and
individual-count tables share their key set, so only the basal key set can
drop a species.  Output rows are
(species, frequency, individual count, basal coefficient). -/
def calcular_fitossociologia_parcelas (df : DF) : Option (List (Cell × ℕ × ℕ × ℚ)) :=
  if df.rows.length = 0 then none else
  match encontrar_coluna df espCandsFito, encontrar_coluna df parcCands with
  | some colEsp, some colParc =>
    let colPlaq? := encontrar_coluna df plaqCands
    let colDap? := encontrar_coluna df dapCands
    let basal := basalEspecies df colEsp colPlaq? colDap?
    some ((espKeys df colEsp).filterMap (fun e =>
      (basal.lookup e).map (fun b =>
        (e, frequenciaEspecie df colEsp colParc e,
         individuosEspecie df colEsp colPlaq? e, b))))
  | _, _ => none

/-! ## Helper lemmas -/

/-- Summing a function over the deduplicated list is summing over the Finset of
its elements. -/
theorem sum_map_dedup {κ M : Type} [DecidableEq κ] [AddCommMonoid M]
    (l : List κ) (f : κ → M) :
    (l.dedup.map f).sum = ∑ k ∈ l.toFinset, f k := by
  have h1 : l.dedup.toFinset = l.toFinset := by
    ext a
    simp
  rw [← h1, List.sum_toFinset f l.nodup_dedup]

/-- The rows carrying one grouping key, counted via the key list. -/
theorem length_filter_key_eq_count {κ : Type} [DecidableEq κ]
    (rows : List Row) (key : Row → Option κ) (k : κ) :
    (rows.filter (fun r => decide (key r = some k))).length = (rows.filterMap key).count k := by
  induction rows with
  | nil => simp
  | cons r t ih =>
    cases h : key r with
    | none => simp [List.filter_cons, List.filterMap_cons, h, ih]
    | some k2 =>
      by_cases hk : k2 = k
      · subst hk
        simp [List.filter_cons, List.filterMap_cons, h, ih, List.count_cons]
      · simp [List.filter_cons, List.filterMap_cons, h, ih, List.count_cons, hk]

/-- Rows with a defined key are exactly the entries of the key list. -/
theorem length_filter_isSome_eq_length_filterMap {κ : Type}
    (rows : List Row) (key : Row → Option κ) :
    (rows.filter (fun r => (key r).isSome)).length = (rows.filterMap key).length := by
  induction rows with
  | nil => rfl
  | cons r t ih =>
    cases h : key r with
    | none => simp [List.filter_cons, List.filterMap_cons, h, ih]
    | some k2 => simp [List.filter_cons, List.filterMap_cons, h, ih]

/-- The per-group row counts of a grouping sum to the number of rows with a
defined key: the groups partition those rows. -/
theorem censoIndividuos_eq_total_linhas {κ : Type} [DecidableEq κ]
    (rows : List Row) (key : Row → Option κ) :
    ((groupRows rows key).map (fun g => g.2.length)).sum =
      (rows.filter (fun r => (key r).isSome)).length := by
  unfold groupRows groupKeys
  rw [List.map_map]
  have h1 : ((rows.filterMap key).dedup.map
      ((fun g : κ × List Row => g.2.length) ∘
        fun k => (k, rows.filter (fun r => decide (key r = some k))))) =
      ((rows.filterMap key).dedup.map (fun k => (rows.filterMap key).count k)) := by
    apply List.map_congr_left
    intro k _
    exact length_filter_key_eq_count rows key k
  rw [h1, sum_map_dedup, List.sum_toFinset_count_eq_length,
    length_filter_isSome_eq_length_filterMap]

/-! ## Concrete inputs used by the claim theorems -/

/-- An inventory row with plot code, area, tag, species, origin, age, height. -/
def mkInvRow (parc : String) (area : ℚ) (plaq esp orig idade : String) (ht : ℚ) : Row :=
  [("cod_parc", Cell.txt parc), ("area_ha", Cell.num area), ("plaqueta", Cell.txt plaq),
   ("especies", Cell.txt esp), ("origem", Cell.txt orig), ("idade", Cell.txt idade),
   ("ht", Cell.num ht)]

/-- The column list of mkInvRow inventories. -/
def invCols : List String :=
  ["cod_parc", "area_ha", "plaqueta", "especies", "origem", "idade", "ht"]

/-- A one-property census characterization frame. -/
def mkCaracCenso (prop : String) : DF :=
  ⟨["cod_prop", "tecnica_am"],
   [[("cod_prop", Cell.txt prop), ("tecnica_am", Cell.txt "Censo")]]⟩

/-- C6 example: one native young individual of height exactly 0.5 in a 0.1 ha
census work unit. -/
def exC6inv : DF :=
  ⟨invCols, [mkInvRow "p1_u1" (1 / 10) "t1" "Cecropia" "Nativa" "Jovem" (1 / 2)]⟩

/-- C6 example characterization. -/
def exC6carac : DF := mkCaracCenso "p1"

/-- C8 example: 17 rows with 17 distinct plot codes. -/
def exC8 : DF :=
  ⟨["cod_parc"], (List.range 17).map (fun i => [("cod_parc", Cell.txt ("p" ++ toString i))])⟩

/-- C5 example: one individual (single tag) with three stems of diameters
10 cm, 15 cm and 20 cm. -/
def exC5 : DF :=
  ⟨["especie", "plaqueta", "dap", "cod_parc"],
   [[("especie", Cell.txt "A"), ("plaqueta", Cell.txt "t1"), ("dap", Cell.num 10),
     ("cod_parc", Cell.txt "p1_u1")],
    [("especie", Cell.txt "A"), ("plaqueta", Cell.txt "t1"), ("dap", Cell.num 15),
     ("cod_parc", Cell.txt "p1_u1")],
    [("especie", Cell.txt "A"), ("plaqueta", Cell.txt "t1"), ("dap", Cell.num 20),
     ("cod_parc", Cell.txt "p1_u1")]]⟩

/-- C3 counterexample input: one work unit of area 0.1 with two stem rows that
share a single tag. -/
def exC3 : DF :=
  ⟨["cod_parc", "area_ha", "plaqueta"],
   [[("cod_parc", Cell.txt "p1_u1"), ("area_ha", Cell.num (1 / 10)), ("plaqueta", Cell.txt "t1")],
    [("cod_parc", Cell.txt "p1_u1"), ("area_ha", Cell.num (1 / 10)), ("plaqueta", Cell.txt "t1")]]⟩

/-! ## Claim theorems -/

unseal Rat.add Rat.sub Rat.mul Rat.inv in
/-- C6: the richness block keeps only heights strictly above 0.5 while the
regenerant-density filter keeps heights from 0.499 on, so an individual of
height exactly 0.5 passes the density filter (and contributes to a positive
density) but is excluded from observed richness. -/
theorem claim_C6_limiar_altura :
    keepAlturaDensidade (Cell.num (1 / 2)) = true ∧
    keepAlturaRiqueza (Cell.num (1 / 2)) = false ∧
    keepAlturaRiqueza (Cell.num (51 / 100)) = true ∧
    keepAlturaDensidade (Cell.num (499 / 1000)) = true ∧
    keepAlturaDensidade (Cell.num (49 / 100)) = false ∧
    (filtroRegenerantes exC6inv).length = 1 ∧
    calcular_densidade_regenerantes exC6inv exC6carac = 10 ∧
    riqueza_observada exC6inv = 0 := by
  refine ⟨?_, ?_, ?_, ?_, ?_, ?_, ?_, ?_⟩ <;> decide

unseal Rat.add Rat.sub Rat.mul Rat.inv in
/-- C8: with a resolvable plot-code column and a positive number of distinct
plot codes, the plot-method area is (distinct plot codes times 100) / 10000
hectares, and 17 distinct plot codes give exactly 0.17 ha. -/
theorem claim_C8_area_parcelas (df : DF) (colParc : String)
    (h1 : encontrar_coluna df parcCands = some colParc)
    (h2 : 0 < nuniqueRows df.rows colParc) :
    (calcular_area_parcelas_tradicional df).1 =
      ((nuniqueRows df.rows colParc : ℚ) * 100) / 10000 ∧
    (calcular_area_parcelas_tradicional exC8).1 = 17 / 100 := by
  constructor
  · have hlen : ¬df.rows.length = 0 := by
      intro h0
      rw [List.length_eq_zero] at h0
      rw [show df.rows = [] from h0] at h2
      simp [nuniqueRows] at h2
    unfold calcular_area_parcelas_tradicional
    rw [if_neg hlen, h1]
    simp only [if_pos h2]
  · decide

unseal Rat.add Rat.sub Rat.mul Rat.inv in
/-- Witness for claim_C8_area_parcelas at the 17-plot input. -/
theorem claim_C8_witness :
    encontrar_coluna exC8 parcCands = some "cod_parc" ∧
    0 < nuniqueRows exC8.rows "cod_parc" ∧
    (calcular_area_parcelas_tradicional exC8).1 =
      ((nuniqueRows exC8.rows "cod_parc" : ℚ) * 100) / 10000 :=
  ⟨by decide, by decide, (claim_C8_area_parcelas exC8 "cod_parc" (by decide) (by decide)).1⟩

unseal Rat.add Rat.sub Rat.mul Rat.inv in
/-- C5: in both phytosociology modes an individual of three stems (diameters
10, 15 and 20 cm) counts once toward density while its basal area is pi times
the summed coefficient 29/1600, which equals pi/4 times the sum of the squared
diameters in metres; the three stem rows are never counted as three
individuals. -/
theorem claim_C5_fustes_multiplos :
    calcular_fitossociologia_censo exC5 = some [(Cell.txt "A", 1, 29 / 1600)] ∧
    calcular_fitossociologia_parcelas exC5 = some [(Cell.txt "A", 1, 1, 29 / 1600)] ∧
    exC5.rows.length = 3 ∧
    Real.pi * ((29 : ℝ) / 1600) =
      Real.pi / 4 * ((10 / 100 : ℝ) ^ 2 + (15 / 100) ^ 2 + (20 / 100) ^ 2) := by
  refine ⟨by decide, by decide, by decide, ?_⟩
  ring_nf

unseal Rat.add Rat.sub Rat.mul Rat.inv in
/-- C3 counterexample: two stem rows sharing one tag in a single work unit.
The method description reports 2 individuals (the raw stem-row count) although
the number of distinct tag values is 1, so the description is NOT a
distinct-tag count. -/
theorem claim_C3_counterexample :
    calcular_area_censo_inventario exC3 = (1 / 10, "Censo (1 UTs, 2 indivíduos)") ∧
    nuniqueRows exC3.rows "plaqueta" = 1 ∧
    encontrar_coluna exC3 plaqCands = some "plaqueta" := by
  refine ⟨?_, ?_, ?_⟩ <;> decide

/-- C3 amended claim: the census method description reports the number of
(property, work-unit) groups and, as individual count, the RAW number of stem
rows carrying a defined group key (the per-group counts summed over the
groups), not a distinct-tag count. -/
theorem censo_resolved_eq (df : DF) (colParc colArea : String)
    (key : Row → Option (String × String))
    (hne : ¬df.rows.length = 0)
    (hP : encontrar_coluna df parcCands = some colParc)
    (hA : encontrar_coluna df ["area_ha", "area"] = some colArea)
    (hK : censoKeyFn df colParc = some key) :
    calcular_area_censo_inventario df =
      (censoAreaTotal df colArea key,
       "Censo (" ++ toString (groupKeys df.rows key).length ++ " UTs, " ++
         toString (censoIndividuos df key) ++ " indivíduos)") := by
  unfold calcular_area_censo_inventario
  rw [if_neg hne]
  split
  · rename_i cp ca heq1 heq2
    rw [hP] at heq1
    rw [hA] at heq2
    injection heq1 with e1
    injection heq2 with e2
    subst e1
    subst e2
    rw [hK]
  · rename_i h
    exact ((h colParc colArea hP hA).elim)

theorem censo_sem_estrutura_eq (df : DF) (colParc colArea : String)
    (hne : ¬df.rows.length = 0)
    (hP : encontrar_coluna df parcCands = some colParc)
    (hA : encontrar_coluna df ["area_ha", "area"] = some colArea)
    (hK : censoKeyFn df colParc = none) :
    calcular_area_censo_inventario df =
      (0, "Censo - não foi possível identificar cod_prop e UT") := by
  unfold calcular_area_censo_inventario
  rw [if_neg hne]
  split
  · rename_i cp ca heq1 heq2
    rw [hP] at heq1
    rw [hA] at heq2
    injection heq1 with e1
    injection heq2 with e2
    subst e1
    subst e2
    rw [hK]
  · rename_i h
    exact ((h colParc colArea hP hA).elim)

theorem claim_C3_amended (df : DF) (colParc colArea : String)
    (key : Row → Option (String × String))
    (hne : ¬df.rows.length = 0)
    (hP : encontrar_coluna df parcCands = some colParc)
    (hA : encontrar_coluna df ["area_ha", "area"] = some colArea)
    (hK : censoKeyFn df colParc = some key) :
    (calcular_area_censo_inventario df).2 =
      "Censo (" ++ toString (df.rows.filterMap key).dedup.length ++ " UTs, " ++
        toString ((df.rows.filter (fun r => (key r).isSome)).length) ++
        " indivíduos)" := by
  rw [censo_resolved_eq df colParc colArea key hne hP hA hK]
  have h1 : censoIndividuos df key =
      (df.rows.filter (fun r => (key r).isSome)).length :=
    censoIndividuos_eq_total_linhas df.rows key
  show "Censo (" ++ toString (groupKeys df.rows key).length ++ " UTs, " ++
    toString (censoIndividuos df key) ++ " indivíduos)" = _
  rw [h1]
  rfl

/-- Witness for claim_C3_amended at the two-stems-one-tag input. -/
theorem claim_C3_amended_witness :
    ¬exC3.rows.length = 0 ∧
    encontrar_coluna exC3 parcCands = some "cod_parc" ∧
    (calcular_area_censo_inventario exC3).2 =
      "Censo (" ++ toString (exC3.rows.filterMap (censoKeySplit "cod_parc")).dedup.length ++
        " UTs, " ++
        toString ((exC3.rows.filter
          (fun r => (censoKeySplit "cod_parc" r).isSome)).length) ++ " indivíduos)" :=
  ⟨by decide, by decide,
   claim_C3_amended exC3 "cod_parc" "area_ha" (censoKeySplit "cod_parc")
     (by decide) (by decide) (by decide) rfl⟩

/-- Failure of the census area when the area column does not resolve. -/
theorem censo_sem_coluna_area_eq (df : DF)
    (hne : ¬df.rows.length = 0)
    (hcol : encontrar_coluna df ["area_ha", "area"] = none) :
    calcular_area_censo_inventario df = (0, "Censo - colunas não encontradas") := by
  unfold calcular_area_censo_inventario
  rw [if_neg hne]
  split
  · rename_i cp ca heq1 heq2
    rw [hcol] at heq2
    exact (Option.noConfusion heq2)
  · rfl

/-- C9: the failure inputs of the area computations (empty subset, column that
does not resolve, unidentifiable property/work-unit structure) all yield the
pair of a zero area and a diagnostic string; the embedded functions are total,
so no exception can escape to the caller. -/
theorem claim_C9_degradacao :
    (∀ df : DF, df.rows.length = 0 →
      calcular_area_censo_inventario df = (0, "Censo (sem dados de inventário)")) ∧
    (∀ df : DF, ¬df.rows.length = 0 → encontrar_coluna df parcCands = none →
      calcular_area_censo_inventario df = (0, "Censo - colunas não encontradas")) ∧
    (∀ df : DF, ¬df.rows.length = 0 →
      encontrar_coluna df ["area_ha", "area"] = none →
      calcular_area_censo_inventario df = (0, "Censo - colunas não encontradas")) ∧
    (∀ df : DF, ∀ colParc colArea : String, ¬df.rows.length = 0 →
      encontrar_coluna df parcCands = some colParc →
      encontrar_coluna df ["area_ha", "area"] = some colArea →
      censoKeyFn df colParc = none →
      calcular_area_censo_inventario df =
        (0, "Censo - não foi possível identificar cod_prop e UT")) ∧
    (∀ df : DF, df.rows.length = 0 →
      calcular_area_parcelas_tradicional df = (0, "Parcelas (sem dados)")) ∧
    (∀ df : DF, ¬df.rows.length = 0 → encontrar_coluna df parcCands = none →
      calcular_area_parcelas_tradicional df = (0, "Parcelas (coluna não encontrada)")) ∧
    (∀ dfC dfI : DF, dfC.rows.length = 0 → dfI.rows.length = 0 →
      calcular_area_amostrada dfC dfI = (0, "Sem dados")) := by
  refine ⟨?_, ?_, ?_, ?_, ?_, ?_, ?_⟩
  · intro df h
    unfold calcular_area_censo_inventario
    rw [if_pos h]
  · intro df hne hcol
    unfold calcular_area_censo_inventario
    rw [if_neg hne]
    split
    · rename_i cp ca heq1 heq2
      rw [hcol] at heq1
      exact (Option.noConfusion heq1)
    · rfl
  · intro df hne hcol
    exact censo_sem_coluna_area_eq df hne hcol
  · intro df colParc colArea hne hP hA hK
    exact censo_sem_estrutura_eq df colParc colArea hne hP hA hK
  · intro df h
    unfold calcular_area_parcelas_tradicional
    rw [if_pos h]
  · intro df hne hcol
    unfold calcular_area_parcelas_tradicional
    rw [if_neg hne, hcol]
  · intro dfC dfI h1 h2
    unfold calcular_area_amostrada
    rw [if_pos ⟨h1, h2⟩]

/-- C9 failure input: a non-empty frame with no resolvable plot or area column. -/
def exC9semCol : DF := ⟨["x"], [[("x", Cell.txt "v")]]⟩

/-- C9 failure input: plot codes without underscore and no property or
work-unit columns, so the census structure cannot be identified. -/
def exC9semEstrutura : DF :=
  ⟨["cod_parc", "area_ha"], [[("cod_parc", Cell.txt "abc"), ("area_ha", Cell.num 1)]]⟩

/-- Witness for claim_C9_degradacao on concrete failure inputs. -/
theorem claim_C9_witness :
    calcular_area_censo_inventario (⟨["x"], []⟩ : DF) =
      (0, "Censo (sem dados de inventário)") ∧
    calcular_area_censo_inventario exC9semCol = (0, "Censo - colunas não encontradas") ∧
    calcular_area_censo_inventario exC9semEstrutura =
      (0, "Censo - não foi possível identificar cod_prop e UT") ∧
    calcular_area_parcelas_tradicional (⟨["x"], []⟩ : DF) = (0, "Parcelas (sem dados)") ∧
    calcular_area_parcelas_tradicional exC9semCol = (0, "Parcelas (coluna não encontrada)") ∧
    calcular_area_amostrada (⟨[], []⟩ : DF) (⟨[], []⟩ : DF) = (0, "Sem dados") :=
  ⟨claim_C9_degradacao.1 _ rfl,
   claim_C9_degradacao.2.1 exC9semCol (by decide) (by decide),
   claim_C9_degradacao.2.2.2.1 exC9semEstrutura "cod_parc" "area_ha"
     (by decide) (by decide) (by decide) rfl,
   claim_C9_degradacao.2.2.2.2.1 _ rfl,
   claim_C9_degradacao.2.2.2.2.2.1 exC9semCol (by decide) (by decide),
   claim_C9_degradacao.2.2.2.2.2.2 _ _ rfl rfl⟩

/-- C1 example inventory: two qualifying regenerants among disqualified rows. -/
def exC1inv : DF :=
  ⟨invCols,
   [mkInvRow "p1_u1" (17 / 100) "t1" "Cecropia" "Nativa" "Jovem" (1 / 2),
    mkInvRow "p1_u1" (17 / 100) "t2" "Eugenia" "Nativa" "Jovem" 2,
    mkInvRow "p1_u1" (17 / 100) "t2" "Eugenia" "Nativa" "Jovem" 3,
    mkInvRow "p1_u1" (17 / 100) "t3" "Morta" "Nativa" "Jovem" 2,
    mkInvRow "p1_u1" (17 / 100) "t4" "Pinus" "Exotica" "Jovem" 2,
    mkInvRow "p1_u1" (17 / 100) "t5" "Cecropia" "Nativa" "Adulta" 2,
    mkInvRow "p1_u1" (17 / 100) "t6" "Cecropia" "Nativa" "Jovem" (2 / 5)]⟩

/-- C1 example characterization: one census property. -/
def exC1carac : DF := mkCaracCenso "p1"

unseal Rat.add Rat.sub Rat.mul Rat.inv in
/-- C1: with non-empty inputs and a resolvable tag column, the regenerant
density is the number of distinct tags surviving the four sequential filters
divided by the area the Area Estimator computes on the UNFILTERED
characterization/inventory pair, and 0 when that area is not positive (the
height cut keeps exactly 0.5, see keepAlturaDensidade). -/
theorem claim_C1_densidade_regenerantes (dfI dfC : DF) (pcol : String)
    (hI : ¬dfI.rows.length = 0) (hC : ¬dfC.rows.length = 0)
    (hPlaq : encontrar_coluna dfI plaqCands = some pcol) :
    calcular_densidade_regenerantes dfI dfC =
      (if 0 < (calcular_area_amostrada dfC dfI).1
       then (nuniqueRows (filtroRegenerantes dfI) pcol : ℚ) /
              (calcular_area_amostrada dfC dfI).1
       else 0) ∧
    keepAlturaDensidade (Cell.num (1 / 2)) = true := by
  constructor
  · unfold calcular_densidade_regenerantes
    rw [if_neg (by
      intro h
      cases h with
      | inl h => exact hI h
      | inr h => exact hC h)]
    by_cases hf : (filtroRegenerantes dfI).length = 0
    · rw [if_pos hf]
      rw [List.length_eq_zero] at hf
      rw [hf]
      have hz : nuniqueRows ([] : List Row) pcol = 0 := rfl
      rw [hz]
      simp
    · rw [if_neg hf, hPlaq]
  · rfl

unseal Rat.add Rat.sub Rat.mul Rat.inv in
/-- Witness for claim_C1_densidade_regenerantes at the concrete example. -/
theorem claim_C1_witness :
    ¬exC1inv.rows.length = 0 ∧ ¬exC1carac.rows.length = 0 ∧
    encontrar_coluna exC1inv plaqCands = some "plaqueta" ∧
    calcular_densidade_regenerantes exC1inv exC1carac =
      (if 0 < (calcular_area_amostrada exC1carac exC1inv).1
       then (nuniqueRows (filtroRegenerantes exC1inv) "plaqueta" : ℚ) /
              (calcular_area_amostrada exC1carac exC1inv).1
       else 0) ∧
    calcular_densidade_regenerantes exC1inv exC1carac = 200 / 17 :=
  ⟨by decide, by decide, by decide,
   (claim_C1_densidade_regenerantes exC1inv exC1carac "plaqueta"
     (by decide) (by decide) (by decide)).1,
   by decide⟩

/-- C7 example: two species with equal abundances (2 rows each). -/
def exC7 : DF :=
  ⟨["especie"],
   [[("especie", Cell.txt "A")], [("especie", Cell.txt "A")],
    [("especie", Cell.txt "B")], [("especie", Cell.txt "B")]]⟩

unseal Rat.add Rat.sub Rat.mul Rat.inv in
/-- C7: for a non-empty abundance distribution the diversity core returns
richness = number of distinct species, Shannon, Simpson diversity and Pielou
with J = 0 whenever S is at most 1 and J = H / log S otherwise; the
two-species equal-count distribution has H = log 2, Simpson diversity 1/2 and
J = 1. -/
theorem claim_C7_indices_diversidade (df : DF) (colEsp : String)
    (hE : encontrar_coluna df espCandsFito = some colEsp)
    (hne : ¬(especiesCount df colEsp).length = 0) :
    calcular_indices_diversidade df =
      some ((especiesCount df colEsp).length,
            shannonIndex ((especiesCount df colEsp).map Prod.snd),
            simpsonDiversidade ((especiesCount df colEsp).map Prod.snd),
            pielou ((especiesCount df colEsp).map Prod.snd)) ∧
    ((especiesCount df colEsp).length ≤ 1 →
      pielou ((especiesCount df colEsp).map Prod.snd) = 0) ∧
    (1 < (especiesCount df colEsp).length →
      pielou ((especiesCount df colEsp).map Prod.snd) =
        shannonIndex ((especiesCount df colEsp).map Prod.snd) /
          Real.log ((especiesCount df colEsp).length : ℝ)) ∧
    shannonIndex [2, 2] = Real.log 2 ∧
    simpsonDiversidade [2, 2] = 1 / 2 ∧
    pielou [2, 2] = 1 ∧
    (especiesCount exC7 "especie").map Prod.snd = [2, 2] := by
  have hshannon : shannonIndex [2, 2] = Real.log 2 := by
    unfold shannonIndex
    simp only [List.map_cons, List.map_nil, List.sum_cons, List.sum_nil]
    norm_num
    rw [show (1 : ℝ) / 2 = 2⁻¹ by norm_num, Real.log_inv]
    ring
  refine ⟨?_, ?_, ?_, hshannon, ?_, ?_, ?_⟩
  · unfold calcular_indices_diversidade
    rw [hE]
    simp only [List.length_map]
    rw [if_neg hne]
  · intro hle
    have hc : ¬(1 < ((especiesCount df colEsp).map Prod.snd).length) := by
      rw [List.length_map]
      omega
    unfold pielou
    rw [if_neg hc]
  · intro hlt
    have hc : 1 < ((especiesCount df colEsp).map Prod.snd).length := by
      rw [List.length_map]
      omega
    unfold pielou
    rw [if_pos hc, List.length_map]
  · decide
  · unfold pielou
    rw [if_pos (by norm_num), hshannon]
    norm_num
  · decide

unseal Rat.add Rat.sub Rat.mul Rat.inv in
/-- Witness for claim_C7_indices_diversidade at the two-species input. -/
theorem claim_C7_witness :
    encontrar_coluna exC7 espCandsFito = some "especie" ∧
    ¬(especiesCount exC7 "especie").length = 0 ∧
    calcular_indices_diversidade exC7 =
      some ((especiesCount exC7 "especie").length,
            shannonIndex ((especiesCount exC7 "especie").map Prod.snd),
            simpsonDiversidade ((especiesCount exC7 "especie").map Prod.snd),
            pielou ((especiesCount exC7 "especie").map Prod.snd)) :=
  ⟨by decide, by decide,
   (claim_C7_indices_diversidade exC7 "especie" (by decide) (by decide)).1⟩

/-- C10 example inventory: plot codes without underscore and no property
column, so property filtering cannot resolve and returns everything. -/
def exC10inv : DF :=
  ⟨["cod_parc", "area_ha"],
   [[("cod_parc", Cell.txt "c1"), ("area_ha", Cell.num (1 / 2))],
    [("cod_parc", Cell.txt "c2"), ("area_ha", Cell.num (1 / 2))],
    [("cod_parc", Cell.txt "q1"), ("area_ha", Cell.num 0)],
    [("cod_parc", Cell.txt "q2"), ("area_ha", Cell.num 0)]]⟩

/-- C10 example characterization: a census property and a plot property. -/
def exC10carac : DF :=
  ⟨["cod_prop", "tecnica_am"],
   [[("cod_prop", Cell.txt "c"), ("tecnica_am", Cell.txt "Censo")],
    [("cod_prop", Cell.txt "q"), ("tecnica_am", Cell.txt "Parcelas")]]⟩

unseal Rat.add Rat.sub Rat.mul Rat.inv in
/-- C10 amended claim: when the plot-code column does not resolve, or the
first plot code has no underscore and no property column resolves, filtering
by properties is the identity, so in the mixed combination both partition
terms receive the full unpartitioned inventory; under those same conditions
the census algorithm cannot identify the (property, work-unit) structure and
returns area 0, so the mixed sum degenerates to the plot-formula area over
every plot code of the full inventory (over-attribution, not double-counting). -/
theorem claim_C10_amended :
    (∀ (df : DF) (props : List Cell), encontrar_coluna df parcCands = none →
      filtrar_inventario_por_propriedades df props = df) ∧
    (∀ (df : DF) (props : List Cell) (colParc : String),
      encontrar_coluna df parcCands = some colParc →
      hasSub ['_'] (cellToStr (getCell (df.rows.headD []) colParc)).toList = false →
      encontrar_coluna df propCands = none →
      filtrar_inventario_por_propriedades df props = df) ∧
    (∀ (df : DF) (colParc : String),
      encontrar_coluna df parcCands = some colParc →
      hasSub ['_'] (cellToStr (getCell (df.rows.headD []) colParc)).toList = false →
      encontrar_coluna df propCands = none →
      (calcular_area_censo_inventario df).1 = 0) ∧
    (filtrar_inventario_por_propriedades exC10inv
        (propsUnicos (particaoCenso exC10carac "tecnica_am")) = exC10inv ∧
     filtrar_inventario_por_propriedades exC10inv
        (propsUnicos (particaoParcelas exC10carac "tecnica_am")) = exC10inv ∧
     (calcular_area_amostrada exC10carac exC10inv).1 =
       (calcular_area_parcelas_tradicional exC10inv).1) := by
  have hident : ∀ (df : DF) (props : List Cell) (colParc : String),
      encontrar_coluna df parcCands = some colParc →
      hasSub ['_'] (cellToStr (getCell (df.rows.headD []) colParc)).toList = false →
      encontrar_coluna df propCands = none →
      filtrar_inventario_por_propriedades df props = df := by
    intro df props colParc hP h2 hprop
    unfold filtrar_inventario_por_propriedades
    split
    · rfl
    · rename_i cp heq
      rw [hP] at heq
      injection heq with e
      subst e
      have hF : (if 0 < df.rows.length then
          hasSub ['_'] (cellToStr (getCell (df.rows.headD []) colParc)).toList
          else false) = false := by
        split_ifs with h
        · exact h2
        · rfl
      simp only [hF, hprop]
      rfl
  refine ⟨?_, hident, ?_, ?_, ?_, ?_⟩
  · intro df props hcol
    unfold filtrar_inventario_por_propriedades
    split
    · rfl
    · rename_i cp heq
      rw [hcol] at heq
      exact (Option.noConfusion heq)
  · intro df colParc hP h2 hprop
    by_cases hlen : df.rows.length = 0
    · unfold calcular_area_censo_inventario
      rw [if_pos hlen]
    · have hK : censoKeyFn df colParc = none := by
        unfold censoKeyFn
        simp only [h2, hprop]
        rfl
      cases hA : encontrar_coluna df ["area_ha", "area"] with
      | none =>
        rw [censo_sem_coluna_area_eq df hlen hA]
      | some colArea =>
        rw [censo_sem_estrutura_eq df colParc colArea hlen hP hA hK]
  · decide
  · decide
  · decide

unseal Rat.add Rat.sub Rat.mul Rat.inv in
/-- C10 counterexample to the double-counting consequence: at the concrete
mixed input that triggers identity filtering, both partition terms receive the
full inventory, the census term is 0 because the structure is unidentifiable,
and the mixed sum equals exactly the plot-only area of the full inventory — no
area is counted twice. -/
theorem claim_C10_counterexample :
    encontrar_coluna exC10inv propCands = none ∧
    filtrar_inventario_por_propriedades exC10inv
      (propsUnicos (particaoCenso exC10carac "tecnica_am")) = exC10inv ∧
    (calcular_area_censo_inventario exC10inv).1 = 0 ∧
    (calcular_area_amostrada exC10carac exC10inv).1 = 1 / 25 ∧
    (calcular_area_parcelas_tradicional exC10inv).1 = 1 / 25 := by
  refine ⟨?_, ?_, ?_, ?_, ?_⟩ <;> decide

unseal Rat.add Rat.sub Rat.mul Rat.inv in
/-- Witness for claim_C10_amended on the concrete identity-filtering input. -/
theorem claim_C10_witness :
    encontrar_coluna exC10inv parcCands = some "cod_parc" ∧
    encontrar_coluna exC10inv propCands = none ∧
    filtrar_inventario_por_propriedades exC10inv [Cell.txt "c"] = exC10inv ∧
    (calcular_area_censo_inventario exC10inv).1 = 0 :=
  ⟨by decide, by decide,
   claim_C10_amended.2.1 exC10inv [Cell.txt "c"] "cod_parc" (by decide) (by decide) (by decide),
   claim_C10_amended.2.2.1 exC10inv "cod_parc" (by decide) (by decide) (by decide)⟩

/-- A one-character needle is found exactly when the character occurs. -/
theorem hasSub_singleton (a : Char) (l : List Char) : hasSub [a] l = true ↔ a ∈ l := by
  induction l with
  | nil => simp [hasSub, isPref]
  | cons c t ih => simp [hasSub, isPref, ih]

/-- Splitting always yields at least one part. -/
theorem splitUndAux_length_pos (l acc : List Char) : 0 < (splitUndAux acc l).length := by
  induction l generalizing acc with
  | nil => simp [splitUndAux]
  | cons c t ih =>
    rw [show splitUndAux acc (c :: t) =
      if c == '_' then acc.reverse :: splitUndAux [] t else splitUndAux (c :: acc) t from rfl]
    split
    · simp
    · exact ih _

/-- Splitting yields a second part exactly when an underscore occurs. -/
theorem splitUndAux_two_iff (l : List Char) : ∀ acc : List Char,
    1 < (splitUndAux acc l).length ↔ '_' ∈ l := by
  induction l with
  | nil => intro acc; simp [splitUndAux]
  | cons c t ih =>
    intro acc
    rw [show splitUndAux acc (c :: t) =
      if c == '_' then acc.reverse :: splitUndAux [] t else splitUndAux (c :: acc) t from rfl]
    rw [List.mem_cons]
    split
    · rename_i hb
      have hc : '_' = c := (beq_iff_eq.mp hb).symm
      simp only [List.length_cons]
      have := splitUndAux_length_pos t []
      constructor
      · intro _
        exact Or.inl hc
      · intro _
        omega
    · rename_i hb
      have hc : ¬('_' = c) := fun hh => hb (beq_iff_eq.mpr hh.symm)
      rw [ih (c :: acc)]
      constructor
      · intro hh
        exact Or.inr hh
      · intro hh
        cases hh with
        | inl hh => exact absurd hh hc
        | inr hh => exact hh

/-- The string split has two parts exactly when it contains an underscore. -/
theorem splitUnd_two_iff (s : String) : 1 < (splitUnd s).length ↔ '_' ∈ s.toList := by
  unfold splitUnd
  rw [List.length_map]
  exact splitUndAux_two_iff s.toList []

/-- A plot code containing an underscore always yields a census key. -/
theorem censoKeySplit_isSome_of_mem (colParc : String) (r : Row)
    (h : '_' ∈ (cellToStr (getCell r colParc)).toList) :
    ∃ k, censoKeySplit colParc r = some k := by
  have h2 : 1 < (splitUnd (cellToStr (getCell r colParc))).length :=
    (splitUnd_two_iff _).mpr h
  obtain ⟨ut, hut⟩ : ∃ ut, (splitUnd (cellToStr (getCell r colParc))).get? 1 = some ut := by
    rw [List.get?_eq_getElem?]
    exact ⟨_, List.getElem?_eq_some_iff.mpr ⟨h2, rfl⟩⟩
  refine ⟨((splitUnd (cellToStr (getCell r colParc))).headD "", ut), ?_⟩
  show Option.map (fun ut => ((splitUnd (cellToStr (getCell r colParc))).headD "", ut))
    ((splitUnd (cellToStr (getCell r colParc))).get? 1) = _
  rw [hut]
  rfl

/-- A row whose key is k belongs to the group of k. -/
theorem mem_filter_of_key {κ : Type} [DecidableEq κ] (rows : List Row)
    (key : Row → Option κ) (r : Row) (k : κ) (hr : r ∈ rows)
    (hkey : key r = some k) :
    r ∈ rows.filter (fun r => decide (key r = some k)) := by
  rw [List.mem_filter]
  refine ⟨hr, ?_⟩
  rw [hkey]
  simp

/-- The first area value of a group whose cells all carry one numeric value. -/
theorem firstNum_all_eq {v : ℚ} (cells : List Cell) (hne : cells ≠ [])
    (hall : ∀ c ∈ cells, c = Cell.num v) : (firstNum cells).getD 0 = v := by
  cases cells with
  | nil => exact absurd rfl hne
  | cons c t =>
    have hc := hall c (List.mem_cons_self c t)
    subst hc
    rfl

/-- The census area under the PROP_UT format with group-consistent areas: it is
the sum, over the distinct (property, work-unit) keys, of the key's area value. -/
theorem censo_area_formula (df : DF) (colParc colArea : String)
    (f : String × String → ℚ)
    (hne : ¬df.rows.length = 0)
    (hP : encontrar_coluna df parcCands = some colParc)
    (hA : encontrar_coluna df ["area_ha", "area"] = some colArea)
    (hU : ∀ r ∈ df.rows, '_' ∈ (cellToStr (getCell r colParc)).toList)
    (hC : ∀ r ∈ df.rows, ∀ k, censoKeySplit colParc r = some k →
      getCell r colArea = Cell.num (f k)) :
    (calcular_area_censo_inventario df).1 =
      ∑ k ∈ (df.rows.filterMap (censoKeySplit colParc)).toFinset, f k := by
  have hhead : hasSub ['_'] (cellToStr (getCell (df.rows.headD []) colParc)).toList = true := by
    cases hrows : df.rows with
    | nil =>
      exfalso
      refine hne ?_
      rw [hrows]
      rfl
    | cons r t =>
      have hr : r ∈ df.rows := by
        rw [hrows]
        exact List.mem_cons_self r t
      exact (hasSub_singleton _ _).mpr (hU r hr)
  have hK : censoKeyFn df colParc = some (censoKeySplit colParc) := by
    unfold censoKeyFn
    rw [if_pos hhead]
  rw [censo_resolved_eq df colParc colArea _ hne hP hA hK]
  show censoAreaTotal df colArea (censoKeySplit colParc) = _
  unfold censoAreaTotal groupRows groupKeys
  rw [List.map_map]
  rw [List.map_congr_left (g := f) ?hcong]
  · exact sum_map_dedup _ f
  · intro k hk
    rw [List.mem_dedup] at hk
    obtain ⟨r, hr, hkey⟩ := List.mem_filterMap.mp hk
    simp only [Function.comp_apply]
    apply firstNum_all_eq
    · exact List.ne_nil_of_mem
        (List.mem_map_of_mem _
          (mem_filter_of_key df.rows (censoKeySplit colParc) r k hr hkey))
    · intro c hc
      obtain ⟨r2, hr2, hce⟩ := List.mem_map.mp hc
      have hr2f := List.mem_filter.mp hr2
      rw [← hce]
      exact hC r2 hr2f.1 k (of_decide_eq_true hr2f.2)

/-- C4: under the PROP_UT format, with every row of a (property, work-unit)
group carrying that group's single area value, the census area equals the sum
of the per-group area values over the distinct groups, and duplicating any
stem row of the subset leaves the result unchanged. -/
theorem claim_C4_censo_deduplicacao (df : DF) (colParc colArea : String)
    (f : String × String → ℚ) (r0 : Row)
    (hP : encontrar_coluna df parcCands = some colParc)
    (hA : encontrar_coluna df ["area_ha", "area"] = some colArea)
    (hU : ∀ r ∈ df.rows, '_' ∈ (cellToStr (getCell r colParc)).toList)
    (hC : ∀ r ∈ df.rows, ∀ k ∈ censoKeySplit colParc r,
      getCell r colArea = Cell.num (f k))
    (hr0 : r0 ∈ df.rows) :
    (calcular_area_censo_inventario df).1 =
      ∑ k ∈ (df.rows.filterMap (censoKeySplit colParc)).toFinset, f k ∧
    (calcular_area_censo_inventario ⟨df.cols, df.rows ++ [r0]⟩).1 =
      (calcular_area_censo_inventario df).1 := by
  have hne : ¬df.rows.length = 0 := by
    intro h
    rw [List.length_eq_zero] at h
    rw [h] at hr0
    exact (List.not_mem_nil r0) hr0
  have h1 := censo_area_formula df colParc colArea f hne hP hA hU hC
  refine ⟨h1, ?_⟩
  have hne2 : ¬(⟨df.cols, df.rows ++ [r0]⟩ : DF).rows.length = 0 := by
    simp
  have hU2 : ∀ r ∈ (⟨df.cols, df.rows ++ [r0]⟩ : DF).rows,
      '_' ∈ (cellToStr (getCell r colParc)).toList := by
    intro r hr
    rcases List.mem_append.mp hr with h | h
    · exact hU r h
    · rw [List.mem_singleton] at h
      subst h
      exact hU _ hr0
  have hC2 : ∀ r ∈ (⟨df.cols, df.rows ++ [r0]⟩ : DF).rows, ∀ k,
      censoKeySplit colParc r = some k → getCell r colArea = Cell.num (f k) := by
    intro r hr k hk
    rcases List.mem_append.mp hr with h | h
    · exact hC r h k hk
    · rw [List.mem_singleton] at h
      subst h
      exact hC _ hr0 k hk
  have h2 := censo_area_formula ⟨df.cols, df.rows ++ [r0]⟩ colParc colArea f hne2 hP hA hU2 hC2
  rw [h1, h2]
  congr 1
  show ((df.rows ++ [r0]).filterMap (censoKeySplit colParc)).toFinset = _
  rw [List.filterMap_append, List.toFinset_append]
  obtain ⟨k0, hk0⟩ := censoKeySplit_isSome_of_mem colParc r0 (hU r0 hr0)
  refine Finset.union_eq_left.mpr ?_
  intro x hx
  rw [List.mem_toFinset] at hx
  simp only [List.filterMap_cons, hk0, List.filterMap_nil] at hx
  rw [List.mem_singleton] at hx
  subst hx
  exact List.mem_toFinset.mpr (List.mem_filterMap.mpr ⟨r0, hr0, hk0⟩)

/-- C4 witness frame: two work units, one with a duplicated-layout pair of
stem rows (area repeated per row). -/
def exC4 : DF :=
  ⟨["cod_parc", "area_ha", "plaqueta"],
   [[("cod_parc", Cell.txt "p1_u1"), ("area_ha", Cell.num (1 / 10)),
     ("plaqueta", Cell.txt "t1")],
    [("cod_parc", Cell.txt "p1_u1"), ("area_ha", Cell.num (1 / 10)),
     ("plaqueta", Cell.txt "t2")],
    [("cod_parc", Cell.txt "p1_u2"), ("area_ha", Cell.num (7 / 100)),
     ("plaqueta", Cell.txt "t3")]]⟩

/-- The consistent per-group area values of exC4. -/
def fC4 : String × String → ℚ := fun k => if k.2 = "u1" then 1 / 10 else 7 / 100

/-- A stem row of exC4, duplicated in the witness. -/
def exC4row : Row :=
  [("cod_parc", Cell.txt "p1_u1"), ("area_ha", Cell.num (1 / 10)),
   ("plaqueta", Cell.txt "t1")]

unseal Rat.add Rat.sub Rat.mul Rat.inv in
/-- Witness for claim_C4_censo_deduplicacao at the two-work-unit frame. -/
theorem claim_C4_witness :
    encontrar_coluna exC4 parcCands = some "cod_parc" ∧
    (∀ r ∈ exC4.rows, '_' ∈ (cellToStr (getCell r "cod_parc")).toList) ∧
    exC4row ∈ exC4.rows ∧
    (calcular_area_censo_inventario exC4).1 =
      ∑ k ∈ (exC4.rows.filterMap (censoKeySplit "cod_parc")).toFinset, fC4 k ∧
    (calcular_area_censo_inventario ⟨exC4.cols, exC4.rows ++ [exC4row]⟩).1 =
      (calcular_area_censo_inventario exC4).1 := by
  have h := claim_C4_censo_deduplicacao exC4 "cod_parc" "area_ha" fC4 exC4row
    (by decide) (by decide) (by decide) (by decide) (by decide)
  exact ⟨by decide, by decide, by decide, h.1, h.2⟩

/-- A non-empty partition has a non-empty set of distinct property cells. -/
theorem propsUnicos_length_pos (rows : List Row) (h : 0 < rows.length) :
    0 < (propsUnicos rows).length := by
  unfold propsUnicos
  rw [List.length_pos]
  rw [Ne, List.dedup_eq_nil]
  intro hh
  rw [List.map_eq_nil_iff] at hh
  rw [hh] at h
  exact absurd h (by simp)

/-- The census term of the mixed combination, on the success path. -/
theorem contribuicaoCenso_eq (dfC dfI : DF) (tcol : String)
    (hpc : 0 < (particaoCenso dfC tcol).length)
    (hcp : "cod_prop" ∈ dfC.cols)
    (hfc : 0 < (filtrar_inventario_por_propriedades dfI
      (propsUnicos (particaoCenso dfC tcol))).rows.length) :
    contribuicaoCenso dfC dfI tcol =
      some (calcular_area_censo_inventario
        (filtrar_inventario_por_propriedades dfI
          (propsUnicos (particaoCenso dfC tcol)))) := by
  simp only [contribuicaoCenso]
  rw [if_pos hpc, if_pos hcp, if_pos (propsUnicos_length_pos _ hpc), if_pos hfc]

/-- The plot term of the mixed combination, on the success path. -/
theorem contribuicaoParcelas_eq (dfC dfI : DF) (tcol : String)
    (hpp : 0 < (particaoParcelas dfC tcol).length)
    (hcp : "cod_prop" ∈ dfC.cols)
    (hfp : 0 < (filtrar_inventario_por_propriedades dfI
      (propsUnicos (particaoParcelas dfC tcol))).rows.length) :
    contribuicaoParcelas dfC dfI tcol =
      some (calcular_area_parcelas_tradicional
        (filtrar_inventario_por_propriedades dfI
          (propsUnicos (particaoParcelas dfC tcol)))) := by
  simp only [contribuicaoParcelas]
  rw [if_pos hpp, if_pos hcp, if_pos (propsUnicos_length_pos _ hpp), if_pos hfp]

/-- C2 example inventory: one census work unit of 0.5 ha and three plot rows. -/
def exC2inv : DF :=
  ⟨["cod_parc", "area_ha"],
   [[("cod_parc", Cell.txt "c_u1"), ("area_ha", Cell.num (1 / 2))],
    [("cod_parc", Cell.txt "q_1"), ("area_ha", Cell.num 0)],
    [("cod_parc", Cell.txt "q_2"), ("area_ha", Cell.num 0)],
    [("cod_parc", Cell.txt "q_3"), ("area_ha", Cell.num 0)]]⟩

/-- C2 example characterization: property c by census, property q by plots. -/
def exC2carac : DF :=
  ⟨["cod_prop", "tecnica_am"],
   [[("cod_prop", Cell.txt "c"), ("tecnica_am", Cell.txt "Censo")],
    [("cod_prop", Cell.txt "q"), ("tecnica_am", Cell.txt "Parcela")]]⟩

unseal Rat.add Rat.sub Rat.mul Rat.inv in
/-- C2: with both techniques present, the mixed area is the SUM of the census
area over the inventory filtered to the census partition's properties and the
plot area over the inventory filtered to the plot partition's properties; at
the concrete example the value 53/100 differs from the average of the two
terms and from either pooled single-method computation over all raw rows. -/
theorem claim_C2_area_mista (dfC dfI : DF) (tcol : String)
    (hT : encontrar_coluna dfC tecCands = some tcol)
    (htc : temCenso dfC tcol = true)
    (htp : temParcelas dfC tcol = true)
    (hpc : 0 < (particaoCenso dfC tcol).length)
    (hpp : 0 < (particaoParcelas dfC tcol).length)
    (hcp : "cod_prop" ∈ dfC.cols)
    (hfc : 0 < (filtrar_inventario_por_propriedades dfI
      (propsUnicos (particaoCenso dfC tcol))).rows.length)
    (hfp : 0 < (filtrar_inventario_por_propriedades dfI
      (propsUnicos (particaoParcelas dfC tcol))).rows.length) :
    ((calcular_area_amostrada dfC dfI).1 =
      (calcular_area_censo_inventario (filtrar_inventario_por_propriedades dfI
        (propsUnicos (particaoCenso dfC tcol)))).1 +
      (calcular_area_parcelas_tradicional (filtrar_inventario_por_propriedades dfI
        (propsUnicos (particaoParcelas dfC tcol)))).1) ∧
    (calcular_area_amostrada exC2carac exC2inv).1 = 53 / 100 ∧
    (calcular_area_censo_inventario (filtrar_inventario_por_propriedades exC2inv
      (propsUnicos (particaoCenso exC2carac "tecnica_am")))).1 = 1 / 2 ∧
    (calcular_area_parcelas_tradicional (filtrar_inventario_por_propriedades exC2inv
      (propsUnicos (particaoParcelas exC2carac "tecnica_am")))).1 = 3 / 100 ∧
    ¬((53 : ℚ) / 100 = (1 / 2 + 3 / 100) / 2) ∧
    (calcular_area_parcelas_tradicional exC2inv).1 = 1 / 25 ∧
    ¬((53 : ℚ) / 100 = 1 / 25) ∧
    (calcular_area_censo_inventario exC2inv).1 = 1 / 2 ∧
    ¬((53 : ℚ) / 100 = 1 / 2) := by
  have hCne : ¬dfC.rows.length = 0 := by
    intro h0
    have h1 : (particaoCenso dfC tcol).length ≤ dfC.rows.length := by
      unfold particaoCenso rowsTecLower
      exact le_trans (List.length_filter_le _ _) (by rw [List.length_map])
    omega
  refine ⟨?_, by decide, by decide, by decide, by decide, by decide, by decide,
    by decide, by decide⟩
  unfold calcular_area_amostrada
  rw [if_neg (fun hand => hCne hand.1)]
  split
  · rename_i heq
    rw [hT] at heq
    exact (Option.noConfusion heq)
  · rename_i tc heq
    rw [hT] at heq
    injection heq with e
    subst e
    rw [if_neg hCne]
    rw [if_neg (by rw [htc, htp]; decide)]
    rw [if_neg (by rw [htc, htp]; decide)]
    rw [if_pos (by rw [htc, htp]; rfl)]
    rw [contribuicaoCenso_eq dfC dfI tcol hpc hcp hfc,
        contribuicaoParcelas_eq dfC dfI tcol hpp hcp hfp]
    simp

unseal Rat.add Rat.sub Rat.mul Rat.inv in
/-- Witness for claim_C2_area_mista at the concrete mixed-technique input. -/
theorem claim_C2_witness :
    encontrar_coluna exC2carac tecCands = some "tecnica_am" ∧
    temCenso exC2carac "tecnica_am" = true ∧
    temParcelas exC2carac "tecnica_am" = true ∧
    "cod_prop" ∈ exC2carac.cols ∧
    (calcular_area_amostrada exC2carac exC2inv).1 =
      (calcular_area_censo_inventario (filtrar_inventario_por_propriedades exC2inv
        (propsUnicos (particaoCenso exC2carac "tecnica_am")))).1 +
      (calcular_area_parcelas_tradicional (filtrar_inventario_por_propriedades exC2inv
        (propsUnicos (particaoParcelas exC2carac "tecnica_am")))).1 :=
  ⟨by decide, by decide, by decide, by decide,
   (claim_C2_area_mista exC2carac exC2inv "tecnica_am" (by decide) (by decide)
     (by decide) (by decide) (by decide) (by decide) (by decide) (by decide)).1⟩

end DashboardMTE
